import Mathlib

/-
  Shallow embedding of the streaming log analyzer (smart_log_analyzer.py).

  Python strings are modelled as Lean `String` (lists of characters);
  Python regular expressions are modelled by a small backtracking matcher
  with named capture groups, adequate for the patterns the program declares
  (character classes, greedy `+`/`*` over a class, one optional group, `$`).
  Character classes use the ASCII reading of `\w`, `\s`, `\d`.
  `float` arithmetic of the summary rates is modelled exactly over `ℚ`.
-/

/-! ## Python string primitives used by the analyzer -/

/-- The characters Python's `str.strip()` / `\s` treat as whitespace (ASCII part). -/
def pySpaceChars : List Char := [' ', '\t', '\n', '\r', '\x0b', '\x0c']

/-- `line.rstrip('\n\r')`: drop every trailing newline or carriage-return character. -/
def pyRstripNL (s : String) : String :=
  String.mk ((s.data.reverse.dropWhile (fun c => c == '\n' || c == '\r')).reverse)

/-- `s.strip()`: drop leading and trailing whitespace. -/
def pyStrip (s : String) : String :=
  String.mk (((s.data.dropWhile (fun c => pySpaceChars.contains c)).reverse.dropWhile
      (fun c => pySpaceChars.contains c)).reverse)

/-- Split a character list at every separator position (empty pieces kept),
as Python's `str.split(sep)` does. -/
def splitByChar (p : Char → Bool) : List Char → List (List Char)
  | [] => [[]]
  | c :: rest =>
    match splitByChar p rest with
    | [] => [[]]
    | g :: gs => if p c then [] :: g :: gs else (c :: g) :: gs

/-- `s.split(sep)` for a one-character separator. -/
def pySplitChar (sep : Char) (s : String) : List String :=
  (splitByChar (fun c => c == sep) s.data).map String.mk

/-- `s.split()` with no argument: split on whitespace runs, dropping empty pieces. -/
def pySplitWs (s : String) : List String :=
  ((splitByChar (fun c => pySpaceChars.contains c) s.data).map String.mk).filter
    (fun t => t ≠ "")

/-- `s[:n]` character slicing. -/
def strTake (s : String) (n : Nat) : String :=
  String.mk (s.data.take n)

/-- `s.lower()` (ASCII). -/
def strLower (s : String) : String :=
  String.mk (s.data.map Char.toLower)

/-- `s.startswith(pre)`. -/
def strStarts (s pre : String) : Bool :=
  pre.data.isPrefixOf s.data

/-- Plain substring test (`needle in haystack` on lowered text, used by the report). -/
def hasSub : List Char → List Char → Bool
  | [], pat => pat.isEmpty
  | c :: rest, pat => pat.isPrefixOf (c :: rest) || hasSub rest pat

/-! ## A small regex engine

The analyzer's patterns only use: literal characters, the classes
`\w \s \S \d [0-9] [^...] .`, greedy `+` and `*` over a single class,
named groups, one optional non-capturing group, and the `$` anchor.
`re.match` anchors at the start; `$` accepts the end of the string
(or a single trailing newline, as in Python). -/

/-- Character classes occurring in the program's patterns. -/
inductive CCl where
  | lit : Char → CCl
  | litCI : Char → CCl
  | word : CCl
  | space : CCl
  | nonspace : CCl
  | digit : CCl
  | dot : CCl
  | noneOf : List Char → CCl
deriving DecidableEq

/-- Does class `c` accept character `x`? -/
def CCl.mch : CCl → Char → Bool
  | .lit c, x => x == c
  | .litCI c, x => x.toLower == c.toLower
  | .word, x => x.isAlphanum || x == '_'
  | .space, x => pySpaceChars.contains x
  | .nonspace, x => !(pySpaceChars.contains x)
  | .digit, x => x.isDigit
  | .dot, x => x != '\n'
  | .noneOf cs, x => !(cs.contains x)

/-- Regex syntax: enough for the analyzer's declared patterns. -/
inductive Rx where
  | eps : Rx
  | ch : CCl → Rx
  | seq : Rx → Rx → Rx
  | rep1 : CCl → Rx
  | rep0 : CCl → Rx
  | grp : String → Rx → Rx
  | opt : Rx → Rx
  | eol : Rx
deriving DecidableEq

/-- Named-capture environment of a match. -/
abbrev Caps := List (String × String)

/-- All ways a greedy run of class `c` can stop, longest run first
(each entry is the remaining input). -/
def greedyRests (c : CCl) : List Char → List (List Char)
  | [] => [[]]
  | x :: xs => if c.mch x then greedyRests c xs ++ [x :: xs] else [x :: xs]

/-- Try the continuation on each candidate rest, first success wins. -/
def tryRests (k : List Char → Option Caps) : List (List Char) → Option Caps
  | [] => none
  | r :: rs =>
    match k r with
    | some res => some res
    | none => tryRests k rs

/-- Backtracking matcher in continuation-passing style: match `r` at the
front of `s` with captures `cs`, then hand the rest to `k`. Greedy
quantifiers try the longest run first, as Python's engine does. -/
def mtch : Rx → List Char → Caps → (List Char → Caps → Option Caps) → Option Caps
  | .eps, s, cs, k => k s cs
  | .ch c, s, cs, k =>
    match s with
    | [] => none
    | x :: xs => if c.mch x then k xs cs else none
  | .seq a b, s, cs, k => mtch a s cs (fun s' cs' => mtch b s' cs' k)
  | .rep1 c, s, cs, k => tryRests (fun r => k r cs) ((greedyRests c s).dropLast)
  | .rep0 c, s, cs, k => tryRests (fun r => k r cs) (greedyRests c s)
  | .grp n r, s, cs, k =>
    mtch r s cs (fun s' cs' => k s' (cs' ++ [(n, String.mk (s.take (s.length - s'.length)))]))
  | .opt r, s, cs, k =>
    match mtch r s cs k with
    | some res => some res
    | none => k s cs
  | .eol, s, cs, k => if s = [] ∨ s = ['\n'] then k s cs else none

/-- `re.match(r, s)` produced a match (truthiness). -/
def rxMatches (r : Rx) (s : List Char) : Bool :=
  (mtch r s [] (fun _ cs => some cs)).isSome

/-- `re.match(r, s)` with its captured groups, `none` when there is no match. -/
def rxCaptures (r : Rx) (s : List Char) : Option Caps :=
  mtch r s [] (fun _ cs => some cs)

/-- `re.search(r, s)`: try a match at every start position, left to right. -/
def rxSearch (r : Rx) : List Char → Bool
  | [] => rxMatches r []
  | c :: rest => rxMatches r (c :: rest) || rxSearch r rest

/-- Sequence a list of regexes. -/
def seqAll : List Rx → Rx
  | [] => .eps
  | r :: rs => .seq r (seqAll rs)

/-- A case-insensitive literal, the shape of the `(?i)word` patterns. -/
def ciLit (s : String) : Rx :=
  seqAll (s.data.map (fun c => .ch (.litCI c)))

/-! ## The analyzer's declared pattern tables -/

/-- `LogAnalyzer.error_patterns`, in declared order. -/
def error_patterns : List Rx :=
  [ ciLit "error", ciLit "exception", ciLit "fail", ciLit "critical", ciLit "fatal",
    ciLit "panic", ciLit "segfault", ciLit "timeout", ciLit "connection refused",
    seqAll [.ch (.litCI '5'), .ch (.litCI '0'), .ch .digit, .ch (.litCI ' ')],
    seqAll [.ch (.litCI '4'), .ch (.litCI '0'), .ch .digit, .ch (.litCI ' ')] ]

/-- `LogAnalyzer.warning_patterns`, in declared order. -/
def warning_patterns : List Rx :=
  [ ciLit "warn", ciLit "warning", ciLit "deprecated", ciLit "slow",
    ciLit "high latency", ciLit "memory usage", ciLit "disk full", ciLit "cpu usage" ]

/-- Syslog line pattern. -/
def syslogRx : Rx :=
  seqAll
    [ .grp "timestamp" (seqAll [.rep1 .word, .rep1 .space, .rep1 .digit, .rep1 .space,
        .rep1 .digit, .ch (.lit ':'), .rep1 .digit, .ch (.lit ':'), .rep1 .digit]),
      .rep1 .space, .grp "host" (.rep1 .nonspace), .rep1 .space,
      .grp "service" (.rep1 .nonspace), .ch (.lit ':'), .rep1 .space,
      .grp "message" (.rep0 .dot), .eol ]

/-- Nginx combined-format line pattern. -/
def nginxRx : Rx :=
  seqAll
    [ .grp "ip" (.rep1 .nonspace), .rep1 .space, .rep1 .nonspace, .rep1 .space,
      .rep1 .nonspace, .rep1 .space,
      .ch (.lit '['), .grp "timestamp" (.rep1 (.noneOf [']'])), .ch (.lit ']'), .rep1 .space,
      .ch (.lit '"'), .grp "method" (.rep1 .nonspace), .rep1 .space,
      .grp "path" (.rep1 .nonspace), .rep1 .space, .rep1 .nonspace, .ch (.lit '"'),
      .rep1 .space, .grp "status" (.rep1 .digit), .rep1 .space,
      .grp "size" (.rep1 .nonspace), .rep1 .space,
      .ch (.lit '"'), .grp "referrer" (.rep0 (.noneOf ['"'])), .ch (.lit '"'), .rep1 .space,
      .ch (.lit '"'), .grp "user_agent" (.rep0 (.noneOf ['"'])), .ch (.lit '"'), .eol ]

/-- Apache line pattern: as nginx but the trailing quoted pair is optional. -/
def apacheRx : Rx :=
  seqAll
    [ .grp "ip" (.rep1 .nonspace), .rep1 .space, .rep1 .nonspace, .rep1 .space,
      .rep1 .nonspace, .rep1 .space,
      .ch (.lit '['), .grp "timestamp" (.rep1 (.noneOf [']'])), .ch (.lit ']'), .rep1 .space,
      .ch (.lit '"'), .grp "method" (.rep1 .nonspace), .rep1 .space,
      .grp "path" (.rep1 .nonspace), .rep1 .space, .rep1 .nonspace, .ch (.lit '"'),
      .rep1 .space, .grp "status" (.rep1 .digit), .rep1 .space,
      .grp "size" (.rep1 .nonspace),
      .opt (seqAll [.rep1 .space,
        .ch (.lit '"'), .grp "referrer" (.rep0 (.noneOf ['"'])), .ch (.lit '"'), .rep1 .space,
        .ch (.lit '"'), .grp "user_agent" (.rep0 (.noneOf ['"'])), .ch (.lit '"')]),
      .eol ]

/-- JSON-shape pattern `^\x7b.*\x7d$` (a brace-delimited line). -/
def jsonRx : Rx :=
  seqAll [.ch (.lit '\x7b'), .rep0 .dot, .ch (.lit '\x7d'), .eol]

/-- `LogAnalyzer.log_formats` in the dict's insertion order. -/
def log_formats : List (String × Rx) :=
  [("syslog", syslogRx), ("nginx", nginxRx), ("apache", apacheRx), ("json", jsonRx)]

/-! ## JSON values, `json.loads` and `json.dumps` -/

/-- Decoded JSON values (`json.loads` results). Numeric literals with a
fraction or exponent are kept as exact rationals (`jfloat`); Python's
binary-float rounding is not modelled. Array items and object members are
first-order chains inside the type itself (`itemsNil`/`itemsCons` and
`itemsNil`/`membCons`), so every function on values is plainly structural
and computes inside the kernel. -/
inductive Jsn where
  | null : Jsn
  | jbool : Bool → Jsn
  | jint : Int → Jsn
  | jfloat : ℚ → Jsn
  | jnan : Jsn
  | jinf : Bool → Jsn
  | jstr : String → Jsn
  | jarr : Jsn → Jsn
  | jobj : Jsn → Jsn
  | itemsNil : Jsn
  | itemsCons : Jsn → Jsn → Jsn
  | membCons : String → Jsn → Jsn → Jsn
deriving DecidableEq

/-- Append one item at the end of an item chain. -/
def itemsAppend : Jsn → Jsn → Jsn
  | .itemsNil, v => .itemsCons v .itemsNil
  | .itemsCons h t, v => .itemsCons h (itemsAppend t v)
  | other, _ => other

/-- Dict insert with Python semantics: a repeated key keeps its first
position and takes the new value; a new key is appended at the end. -/
def membSet : Jsn → String → Jsn → Jsn
  | .itemsNil, k, v => .membCons k v .itemsNil
  | .membCons k' v' rest, k, v =>
    if k' == k then .membCons k' v rest else .membCons k' v' (membSet rest k v)
  | other, _, _ => other

/-- Key membership in a member chain. -/
def membHasKey : Jsn → String → Bool
  | .membCons k' _ rest, k => k' == k || membHasKey rest k
  | _, _ => false

/-- Lookup in a member chain. -/
def membGet : Jsn → String → Option Jsn
  | .membCons k' v rest, k => if k' == k then some v else membGet rest k
  | _, _ => none

/-- JSON document whitespace. -/
def jskipWs : List Char → List Char
  | c :: rest => if c = ' ' ∨ c = '\t' ∨ c = '\n' ∨ c = '\r' then jskipWs rest else c :: rest
  | [] => []

/-- Hexadecimal digit value. -/
def hexVal (c : Char) : Option Nat :=
  if '0' ≤ c ∧ c ≤ '9' then some (c.toNat - 48)
  else if 'a' ≤ c ∧ c ≤ 'f' then some (c.toNat - 87)
  else if 'A' ≤ c ∧ c ≤ 'F' then some (c.toNat - 55)
  else none

/-- Parse the body of a JSON string literal (after the opening quote),
with Python's strict escapes: raw control characters are rejected. -/
def jstring : Nat → List Char → List Char → Option (String × List Char)
  | 0, _, _ => none
  | fuel + 1, acc, s =>
    match s with
    | '"' :: r => some (String.mk acc.reverse, r)
    | '\\' :: e :: r =>
      match e with
      | '"' => jstring fuel ('"' :: acc) r
      | '\\' => jstring fuel ('\\' :: acc) r
      | '/' => jstring fuel ('/' :: acc) r
      | 'b' => jstring fuel ('\x08' :: acc) r
      | 'f' => jstring fuel ('\x0c' :: acc) r
      | 'n' => jstring fuel ('\n' :: acc) r
      | 'r' => jstring fuel ('\r' :: acc) r
      | 't' => jstring fuel ('\t' :: acc) r
      | 'u' =>
        match r with
        | h1 :: h2 :: h3 :: h4 :: r' =>
          match hexVal h1, hexVal h2, hexVal h3, hexVal h4 with
          | some a, some b, some c, some d =>
            jstring fuel (Char.ofNat (((a * 16 + b) * 16 + c) * 16 + d) :: acc) r'
          | _, _, _, _ => none
        | _ => none
      | _ => none
    | c :: r => if c.toNat < 0x20 then none else jstring fuel (c :: acc) r
    | [] => none

/-- Decimal value of a digit list. -/
def digitsVal (ds : List Char) : Nat :=
  ds.foldl (fun a c => a * 10 + (c.toNat - 48)) 0

/-- Parse a JSON number starting at `s` (first character is `-` or a digit). -/
def jnumber (s : List Char) : Option (Jsn × List Char) :=
  let (neg, s1) : Bool × List Char :=
    match s with
    | '-' :: r => (true, r)
    | _ => (false, s)
  let ip := s1.takeWhile Char.isDigit
  let s2 := s1.dropWhile Char.isDigit
  if ip = [] then none
  else if 1 < ip.length ∧ ip.headD 'x' = '0' then none
  else
    let ipv : Int := if neg then -(digitsVal ip : Int) else (digitsVal ip : Int)
    match s2 with
    | '.' :: r =>
      let fp := r.takeWhile Char.isDigit
      let s3 := r.dropWhile Char.isDigit
      if fp = [] then none
      else
        let base : ℚ := (ipv : ℚ) +
          (if neg then -1 else 1) * ((digitsVal fp : ℚ) / ((10 : ℚ) ^ fp.length))
        match s3 with
        | e :: r2 =>
          if e = 'e' ∨ e = 'E' then
            let (eneg, r3) : Bool × List Char :=
              match r2 with
              | '-' :: r' => (true, r')
              | '+' :: r' => (false, r')
              | _ => (false, r2)
            let ed := r3.takeWhile Char.isDigit
            let s4 := r3.dropWhile Char.isDigit
            if ed = [] then none
            else if eneg then some (.jfloat (base / (10 : ℚ) ^ digitsVal ed), s4)
            else some (.jfloat (base * (10 : ℚ) ^ digitsVal ed), s4)
          else some (.jfloat base, s3)
        | [] => some (.jfloat base, [])
    | e :: r2 =>
      if e = 'e' ∨ e = 'E' then
        let (eneg, r3) : Bool × List Char :=
          match r2 with
          | '-' :: r' => (true, r')
          | '+' :: r' => (false, r')
          | _ => (false, r2)
        let ed := r3.takeWhile Char.isDigit
        let s4 := r3.dropWhile Char.isDigit
        if ed = [] then none
        else if eneg then some (.jfloat ((ipv : ℚ) / (10 : ℚ) ^ digitsVal ed), s4)
        else some (.jfloat ((ipv : ℚ) * (10 : ℚ) ^ digitsVal ed), s4)
      else some (.jint ipv, s2)
    | [] => some (.jint ipv, [])

/-- The parser's mode: a top-level value, the item loop of an array, or
the member loop of an object (the accumulated chain rides along). -/
inductive JMode where
  | val : JMode
  | arrItems : Jsn → JMode
  | objItems : Jsn → JMode

/-- Fueled recursive-descent JSON parser, structural on the fuel. -/
def jparse : Nat → JMode → List Char → Option (Jsn × List Char)
  | 0, _, _ => none
  | fuel + 1, .val, s =>
    match jskipWs s with
    | 'n' :: 'u' :: 'l' :: 'l' :: r => some (.null, r)
    | 't' :: 'r' :: 'u' :: 'e' :: r => some (.jbool true, r)
    | 'f' :: 'a' :: 'l' :: 's' :: 'e' :: r => some (.jbool false, r)
    | 'N' :: 'a' :: 'N' :: r => some (.jnan, r)
    | 'I' :: 'n' :: 'f' :: 'i' :: 'n' :: 'i' :: 't' :: 'y' :: r => some (.jinf false, r)
    | '-' :: 'I' :: 'n' :: 'f' :: 'i' :: 'n' :: 'i' :: 't' :: 'y' :: r => some (.jinf true, r)
    | '"' :: r =>
      match jstring fuel [] r with
      | some (str, r') => some (.jstr str, r')
      | none => none
    | '[' :: r =>
      match jskipWs r with
      | ']' :: r' => some (.jarr .itemsNil, r')
      | _ => jparse fuel (.arrItems .itemsNil) r
    | '\x7b' :: r =>
      match jskipWs r with
      | '\x7d' :: r' => some (.jobj .itemsNil, r')
      | _ => jparse fuel (.objItems .itemsNil) r
    | c :: r => if c = '-' ∨ c.isDigit then jnumber (c :: r) else none
    | [] => none
  | fuel + 1, .arrItems acc, s =>
    match jparse fuel .val s with
    | none => none
    | some (v, r) =>
      match jskipWs r with
      | ',' :: r' => jparse fuel (.arrItems (itemsAppend acc v)) r'
      | ']' :: r' => some (.jarr (itemsAppend acc v), r')
      | _ => none
  | fuel + 1, .objItems acc, s =>
    match jskipWs s with
    | '"' :: r =>
      match jstring fuel [] r with
      | none => none
      | some (k, r1) =>
        match jskipWs r1 with
        | ':' :: r2 =>
          match jparse fuel .val r2 with
          | none => none
          | some (v, r3) =>
            match jskipWs r3 with
            | ',' :: r4 => jparse fuel (.objItems (membSet acc k v)) r4
            | '\x7d' :: r4 => some (.jobj (membSet acc k v), r4)
            | _ => none
        | _ => none
    | _ => none

/-- `json.loads`: parse the whole string, requiring only whitespace after the value. -/
def jsonLoads (s : String) : Option Jsn :=
  match jparse (s.length * 2 + 8) .val s.data with
  | some (v, rest) => if jskipWs rest = [] then some v else none
  | none => none

/-- Lower-case hex digit. -/
def hexDigit (n : Nat) : Char :=
  if n < 10 then Char.ofNat (48 + n) else Char.ofNat (87 + n % 16)

/-- Four lower-case hex digits. -/
def hex4 (n : Nat) : List Char :=
  [hexDigit (n / 4096 % 16), hexDigit (n / 256 % 16), hexDigit (n / 16 % 16), hexDigit (n % 16)]

/-- Escape one character as `json.dumps` does with `ensure_ascii=True`. -/
def escChar (c : Char) : List Char :=
  if c = '"' then ['\\', '"']
  else if c = '\\' then ['\\', '\\']
  else if c = '\n' then ['\\', 'n']
  else if c = '\r' then ['\\', 'r']
  else if c = '\t' then ['\\', 't']
  else if c = '\x08' then ['\\', 'b']
  else if c = '\x0c' then ['\\', 'f']
  else if c.toNat < 0x20 ∨ (0x7e < c.toNat ∧ c.toNat ≤ 0xffff) then '\\' :: 'u' :: hex4 c.toNat
  else if 0xffff < c.toNat then
    '\\' :: 'u' :: hex4 (0xd800 + (c.toNat - 0x10000) / 0x400) ++
      '\\' :: 'u' :: hex4 (0xdc00 + (c.toNat - 0x10000) % 0x400)
  else [c]

/-- `json.dumps` of a string. -/
def escStr (s : String) : String :=
  String.mk (s.data.foldr (fun c acc => escChar c ++ acc) [])

/-- A JSON string literal with its quotes. -/
def dumpStr (s : String) : String := "\"" ++ escStr s ++ "\""

/-- Best-effort decimal rendering of a rational (only reached for float
literals, which no analyzed line in this development produces). -/
def dumpRat (q : ℚ) : String :=
  toString q.num ++ "/" ++ toString q.den

/-- `json.dumps` with its default separators `", "` and `": "` (item and
member chains render their elements joined by `", "`). -/
def dumpJsn : Jsn → String
  | .null => "null"
  | .jbool true => "true"
  | .jbool false => "false"
  | .jint n => toString n
  | .jfloat q => dumpRat q
  | .jnan => "NaN"
  | .jinf true => "-Infinity"
  | .jinf false => "Infinity"
  | .jstr s => dumpStr s
  | .jarr items => "[" ++ dumpJsn items ++ "]"
  | .jobj membs => "\x7b" ++ dumpJsn membs ++ "\x7d"
  | .itemsNil => ""
  | .itemsCons v .itemsNil => dumpJsn v
  | .itemsCons v rest => dumpJsn v ++ ", " ++ dumpJsn rest
  | .membCons k v .itemsNil => dumpStr k ++ ": " ++ dumpJsn v
  | .membCons k v rest => dumpStr k ++ ": " ++ dumpJsn v ++ ", " ++ dumpJsn rest

/-! ## Detection and parsing (`detect_format`, `parse_line`) -/

/-- A parsed line: a decoded JSON value, a groupdict of named captures
(`none` marks a declared group that did not participate), or one of the
fallback dicts `\x7b'raw': …, 'format': …\x7d`. -/
inductive Record where
  | json : Jsn → Record
  | fields : List (String × Option String) → Record
  | fallback : String → String → Record
deriving DecidableEq

/-- `key in parsed_data`. -/
def Record.hasKey : Record → String → Bool
  | .fields m, k => (m.lookup k).isSome
  | .fallback _ _, k => k == "raw" || k == "format"
  | .json (.jobj kvs), k => membHasKey kvs k
  | .json _, _ => false

/-- `parsed_data[key]` as a string, `none` when absent (or not a string,
a case the analyzer never reaches). -/
def Record.getStr : Record → String → Option String
  | .fields m, k =>
    match m.lookup k with
    | some (some v) => some v
    | _ => none
  | .fallback r f, k =>
    if k = "raw" then some r else if k = "format" then some f else none
  | .json (.jobj kvs), k =>
    match membGet kvs k with
    | some (.jstr s) => some s
    | _ => none
  | .json _, _ => none

/-- `LogAnalyzer.detect_format`: JSON shape first (on the stripped line),
then the remaining formats in declared order on the untrimmed line. -/
def detect_format (line : String) : String :=
  if rxMatches jsonRx (pyStrip line).data then "json"
  else
    match log_formats.find? (fun p => p.1 != "json" && rxMatches p.2 line.data) with
    | some p => p.1
    | none => "unknown"

/-- The declared capture-group names of each recognized format
(`match.groupdict()` lists every declared group). -/
def group_names (fmt : String) : List String :=
  if fmt = "syslog" then ["timestamp", "host", "service", "message"]
  else if fmt = "nginx" ∨ fmt = "apache" then
    ["ip", "timestamp", "method", "path", "status", "size", "referrer", "user_agent"]
  else []

/-- `match.groupdict()`: every declared group, `none` when it did not participate. -/
def groupdict (fmt : String) (caps : Caps) : List (String × Option String) :=
  (group_names fmt).map (fun n => (n, caps.lookup n))

/-- `LogAnalyzer.parse_line`: decode JSON (falling back on decode error),
re-apply the detected format's pattern, or return the unknown fallback. -/
def parse_line (line : String) (detected_format : String) : Record :=
  if detected_format = "json" then
    match jsonLoads (pyStrip line) with
    | some v => .json v
    | none => .fallback (pyStrip line) "json_parse_error"
  else if detected_format = "syslog" then
    match rxCaptures syslogRx line.data with
    | some caps => .fields (groupdict "syslog" caps)
    | none => .fallback (pyStrip line) "syslog_parse_error"
  else if detected_format = "nginx" then
    match rxCaptures nginxRx line.data with
    | some caps => .fields (groupdict "nginx" caps)
    | none => .fallback (pyStrip line) "nginx_parse_error"
  else if detected_format = "apache" then
    match rxCaptures apacheRx line.data with
    | some caps => .fields (groupdict "apache" caps)
    | none => .fallback (pyStrip line) "apache_parse_error"
  else .fallback (pyStrip line) "unknown"

/-- A groupdict as a JSON member chain (a non-participating group maps to
`null`, as Python's `json.dumps` renders `None`). -/
def fieldsChain : List (String × Option String) → Jsn
  | [] => .itemsNil
  | (k, some v) :: rest => .membCons k (.jstr v) (fieldsChain rest)
  | (k, none) :: rest => .membCons k .null (fieldsChain rest)

/-- `json.dumps(parsed_data)` for the error/warning message text of a
JSON-format line (also defined on groupdicts for totality, mapping a
non-participating group to `null` as Python would). -/
def dumpRecord : Record → String
  | .json v => dumpJsn v
  | .fallback r f =>
    dumpJsn (.jobj (.membCons "raw" (.jstr r) (.membCons "format" (.jstr f) .itemsNil)))
  | .fields m => dumpJsn (.jobj (fieldsChain m))

/-- The `message_text` derivation: JSON records are re-serialized, other
records prefer their `message` field, then `raw`, else the empty string. -/
def message_text (fmt : String) (parsed_data : Record) : String :=
  if fmt = "json" then dumpRecord parsed_data
  else if parsed_data.hasKey "message" then (parsed_data.getStr "message").getD ""
  else if parsed_data.hasKey "raw" then (parsed_data.getStr "raw").getD ""
  else ""

/-- Hour extraction for the hourly histogram: split the timestamp on `:`
and take the second token (nginx/apache), or split on whitespace, take the
third token and its first `:`-part (syslog); any index failure is `none`. -/
def extract_hour (fmt : String) (parsed_data : Record) : Option String :=
  if parsed_data.hasKey "timestamp" then
    if fmt = "nginx" ∨ fmt = "apache" then
      match parsed_data.getStr "timestamp" with
      | some ts => (pySplitChar ':' ts).get? 1
      | none => none
    else if fmt = "syslog" then
      match parsed_data.getStr "timestamp" with
      | some ts =>
        match (pySplitWs ts).get? 2 with
        | some tok => (pySplitChar ':' tok).get? 0
        | none => none
      | none => none
    else none
  else none

/-! ## The running statistics and the per-line fold -/

/-- One buffered error/warning sample. -/
structure Sample where
  line_number : Nat
  content : String
  format : String
deriving DecidableEq

/-- The `stats` accumulator dict of `analyze_log_file`. Counters are
association lists in key insertion order, as Python dicts are. -/
structure Stats where
  total_lines : Nat
  errors : Nat
  warnings : Nat
  error_samples : List Sample
  warning_samples : List Sample
  status_codes : List (String × Nat)
  response_times : List ℚ
  top_paths : List (String × Nat)
  top_ips : List (String × Nat)
  format_distribution : List (String × Nat)
  hourly_activity : List (String × Nat)
deriving DecidableEq

/-- The freshly initialized accumulator. -/
def initStats : Stats :=
  { total_lines := 0, errors := 0, warnings := 0, error_samples := [],
    warning_samples := [], status_codes := [], response_times := [],
    top_paths := [], top_ips := [], format_distribution := [], hourly_activity := [] }

/-- `Counter`/`defaultdict(int)` increment: bump in place or append a new key. -/
def counterIncr (m : List (String × Nat)) (k : String) : List (String × Nat) :=
  match m with
  | [] => [(k, 1)]
  | (k', n) :: rest => if k' == k then (k', n + 1) :: rest else (k', n) :: counterIncr rest k

/-- The count stored under a key (0 when absent). -/
def countValue (m : List (String × Nat)) (k : String) : Nat :=
  (m.lookup k).getD 0

/-- `stats['total_lines'] += 1`. -/
def count_line (s : Stats) : Stats :=
  { s with total_lines := s.total_lines + 1 }

/-- `stats['format_distribution'][detected_format] += 1`. -/
def record_format (fmt : String) (s : Stats) : Stats :=
  { s with format_distribution := counterIncr s.format_distribution fmt }

/-- The hourly-activity block: bump the extracted hour's bucket, silently
skipping the line when extraction fails. -/
def hour_phase (fmt : String) (parsed_data : Record) (s : Stats) : Stats :=
  match extract_hour fmt parsed_data with
  | some h => { s with hourly_activity := counterIncr s.hourly_activity h }
  | none => s

/-- The error-counting loop: on the first matching pattern, bump the error
count and append a sample when the buffer holds fewer than 10. -/
def error_phase (lineNum : Nat) (msg : String) (fmt : String) (s : Stats) : Stats :=
  if error_patterns.any (fun p => rxSearch p msg.data) then
    { s with
      errors := s.errors + 1,
      error_samples :=
        if s.error_samples.length < 10 then
          s.error_samples ++ [{ line_number := lineNum, content := strTake msg 200, format := fmt }]
        else s.error_samples }
  else s

/-- The warning-counting loop, independent of the error loop. -/
def warning_phase (lineNum : Nat) (msg : String) (fmt : String) (s : Stats) : Stats :=
  if warning_patterns.any (fun p => rxSearch p msg.data) then
    { s with
      warnings := s.warnings + 1,
      warning_samples :=
        if s.warning_samples.length < 10 then
          s.warning_samples ++ [{ line_number := lineNum, content := strTake msg 200, format := fmt }]
        else s.warning_samples }
  else s

/-- `stats['status_codes'][parsed_data['status']] += 1` when present. -/
def web_status (parsed_data : Record) (s : Stats) : Stats :=
  match parsed_data.getStr "status" with
  | some v => { s with status_codes := counterIncr s.status_codes v }
  | none => s

/-- `stats['top_paths'][parsed_data['path']] += 1` when present. -/
def web_path (parsed_data : Record) (s : Stats) : Stats :=
  match parsed_data.getStr "path" with
  | some v => { s with top_paths := counterIncr s.top_paths v }
  | none => s

/-- `stats['top_ips'][parsed_data['ip']] += 1` when present. -/
def web_ip (parsed_data : Record) (s : Stats) : Stats :=
  match parsed_data.getStr "ip" with
  | some v => { s with top_ips := counterIncr s.top_ips v }
  | none => s

/-- The web-server-metrics block, only for nginx/apache lines. -/
def web_phase (fmt : String) (parsed_data : Record) (s : Stats) : Stats :=
  if fmt = "nginx" ∨ fmt = "apache" then
    web_ip parsed_data (web_path parsed_data (web_status parsed_data s))
  else s

/-- One iteration of the `for line_num, line in enumerate(file_handle, 1)`
loop body: strip the line terminator, skip empty lines, then fold the
line through every block in program order. -/
def processLine (lineNum : Nat) (rawLine : String) (s : Stats) : Stats :=
  let line := pyRstripNL rawLine
  if line = "" then s
  else
    let fmt := detect_format line
    let parsed_data := parse_line line fmt
    let msg := message_text fmt parsed_data
    web_phase fmt parsed_data
      (warning_phase lineNum msg fmt
        (error_phase lineNum msg fmt
          (hour_phase fmt parsed_data
            (record_format fmt (count_line s)))))

/-- The whole enumeration loop, carrying the 1-based line number. -/
def runLines : Nat → List String → Stats → Stats
  | _, [], s => s
  | n, l :: rest, s => runLines (n + 1) rest (processLine n l s)

/-! ## End-of-stream derivation (`insights`) -/

/-- Floor of a rational as an integer. -/
def ratFloor (q : ℚ) : ℤ :=
  q.num.fdiv (q.den : ℤ)

/-- Round to the nearest integer, ties to even (Python's `round`). -/
def roundHalfEven (q : ℚ) : ℤ :=
  let f := ratFloor q
  let r := q - (f : ℚ)
  if r < 1 / 2 then f
  else if 1 / 2 < r then f + 1
  else if f % 2 = 0 then f
  else f + 1

/-- `round(x, 2)`, modelled exactly over the rationals. -/
def pyRound2 (q : ℚ) : ℚ :=
  (roundHalfEven (q * 100) : ℚ) / 100

/-- `Counter.most_common(1)[0]`: the first key of maximal count in
insertion order, `none` for an empty counter. -/
def most_common_1 (m : List (String × Nat)) : Option (String × Nat) :=
  m.foldl
    (fun acc kv =>
      match acc with
      | none => some kv
      | some best => if best.2 < kv.2 then some kv else acc)
    none

/-- Stable insertion into a count-descending list (earlier keys stay
ahead of later keys with the same count). -/
def insertByCount (kv : String × Nat) : List (String × Nat) → List (String × Nat)
  | [] => [kv]
  | kv' :: rest => if kv'.2 < kv.2 then kv :: kv' :: rest else kv' :: insertByCount kv rest

/-- `Counter.most_common(n)`: top `n` keys by count, insertion-stable. -/
def most_common_n (n : Nat) (m : List (String × Nat)) : List (String × Nat) :=
  (m.foldr insertByCount []).take n

/-- `_get_common_patterns`: keyword labels of the first 5 samples,
deduplicated (first occurrence kept) and capped at 3. Python's
`list(set(...))` order is hash-dependent; this models one stable choice. -/
def get_common_patterns (samples : List Sample) : List String :=
  if samples = [] then []
  else
    ((samples.take 5).filterMap (fun sm =>
      let content := strLower sm.content
      if hasSub content.data "timeout".data then some "Timeout issues"
      else if hasSub content.data "connection".data then some "Connection problems"
      else if hasSub content.data "memory".data || hasSub content.data "ram".data then
        some "Memory pressure"
      else if hasSub content.data "disk".data || hasSub content.data "storage".data then
        some "Storage issues"
      else if hasSub content.data "cpu".data then some "High CPU usage"
      else none)).dedup.take 3

/-- The fixed advisory strings of `_generate_recommendations`. -/
def msgErrAdvice : String :=
  "Investigate error patterns - consider implementing better error handling"

/-- Advisory for any warnings. -/
def msgWarnAdvice : String :=
  "Address warning messages to prevent potential issues"

/-- Advisory for a high error rate. -/
def msgRateAdvice : String :=
  "High error rate detected (>5%) - immediate investigation recommended"

/-- Advisory for 4xx/5xx status codes. -/
def msgHttpAdvice : String :=
  "HTTP 4xx/5xx errors detected - check application health"

/-- Advisory naming a suspiciously active IP (the count is not part of it). -/
def msgIpAdvice (ip : String) : String :=
  "Suspicious activity from IP " ++ ip ++ " - possible bot or attack"

/-- The fallback recommendation. -/
def msgHealthy : String :=
  "No critical issues detected - system appears healthy"

/-- `_generate_recommendations`: five independent checks appending in
program order, with a fallback when none fired. -/
def generate_recommendations (s : Stats) : List String :=
  let recs : List String := []
  let recs := if s.errors > 0 then recs ++ [msgErrAdvice] else recs
  let recs := if s.warnings > 0 then recs ++ [msgWarnAdvice] else recs
  let error_rate : ℚ := (s.errors : ℚ) / ((max s.total_lines 1 : ℕ) : ℚ)
  let recs := if error_rate > 5 / 100 then recs ++ [msgRateAdvice] else recs
  let bad_status_codes :=
    (s.status_codes.map Prod.fst).filter (fun code => strStarts code "4" || strStarts code "5")
  let recs := if bad_status_codes ≠ [] then recs ++ [msgHttpAdvice] else recs
  let recs :=
    match most_common_1 s.top_ips with
    | some kv =>
      if (kv.2 : ℚ) > (s.total_lines : ℚ) * (1 / 10) then recs ++ [msgIpAdvice kv.1] else recs
    | none => recs
  if recs ≠ [] then recs else [msgHealthy]

/-- The `summary` block of the report. -/
structure Summary where
  total_lines_processed : Nat
  error_count : Nat
  warning_count : Nat
  error_rate : ℚ
  warning_rate : ℚ
deriving DecidableEq

/-- The final report (`insights`). -/
structure Insights where
  summary : Summary
  format_analysis : List (String × Nat)
  error_samples : List Sample
  most_common_errors : List String
  warning_samples : List Sample
  most_common_warnings : List String
  status_code_distribution : List (String × Nat)
  top_requested_paths : List (String × Nat)
  top_client_ips : List (String × Nat)
  hourly_activity : List (String × Nat)
  recommendations : List String
deriving DecidableEq

/-- `LogAnalyzer.analyze_log_file` on a stream of raw lines: fold every
line into the accumulator, then derive the report. -/
def analyze_log_file (input_lines : List String) : Insights :=
  let stats := runLines 1 input_lines initStats
  { summary :=
      { total_lines_processed := stats.total_lines,
        error_count := stats.errors,
        warning_count := stats.warnings,
        error_rate := pyRound2 ((stats.errors : ℚ) / ((max stats.total_lines 1 : ℕ) : ℚ) * 100),
        warning_rate :=
          pyRound2 ((stats.warnings : ℚ) / ((max stats.total_lines 1 : ℕ) : ℚ) * 100) },
    format_analysis := stats.format_distribution,
    error_samples := stats.error_samples,
    most_common_errors := get_common_patterns stats.error_samples,
    warning_samples := stats.warning_samples,
    most_common_warnings := get_common_patterns stats.warning_samples,
    status_code_distribution := stats.status_codes,
    top_requested_paths := most_common_n 10 stats.top_paths,
    top_client_ips := most_common_n 10 stats.top_ips,
    hourly_activity := stats.hourly_activity,
    recommendations := generate_recommendations stats }

/-! ## Derived notions and concrete inputs used by the verification -/

/-- The message text the error/warning loops see for a (stripped) line. -/
def line_message (line : String) : String :=
  message_text (detect_format line) (parse_line line (detect_format line))

/-- The hour token a raw input line contributes to the hourly histogram,
`none` when the line is skipped or extraction fails. -/
def hour_of_raw (raw : String) : Option String :=
  let line := pyRstripNL raw
  if line = "" then none
  else extract_hour (detect_format line) (parse_line line (detect_format line))

/-- Every hour token extracted from a stream, in order. -/
def extracted_hours (ls : List String) : List String :=
  ls.filterMap hour_of_raw

/-- Modelled from the claim's words: the two-digit hour-of-day keys
"00".."23" that the hourly histogram is claimed to be keyed by. -/
def claimed_hour_keys : List String :=
  ["00", "01", "02", "03", "04", "05", "06", "07", "08", "09", "10", "11",
   "12", "13", "14", "15", "16", "17", "18", "19", "20", "21", "22", "23"]

/-- The nginx example line of the specification. -/
def c1line : String :=
  "192.168.1.5 - - [04/Feb/2026:08:15:30 +0800] \"GET /api HTTP/1.1\" 500 512 \"-\" \"curl/8.0\""

/-- An nginx-shaped line whose timestamp field is not a calendar timestamp. -/
def c9line : String :=
  "1.2.3.4 - - [a:ZZ:b] \"GET /p HTTP/1.1\" 200 5 \"-\" \"ua\""

/-- 100 lines, 7 of which contain "error" case-insensitively and nothing
else matching any pattern. -/
def c8input : List String :=
  List.replicate 7 "ERROR" ++ List.replicate 93 "zz"

/-- Final statistics where one IP issued 15 of 100 lines and nothing else fired. -/
def c7statsA : Stats :=
  { initStats with total_lines := 100, top_ips := [("1.2.3.4", 15)] }

/-- The same statistics with the dominant IP's count changed to 16. -/
def c7statsB : Stats :=
  { initStats with total_lines := 100, top_ips := [("1.2.3.4", 16)] }

/-! ## Frame lemmas for the per-line phases -/

theorem count_line_errors (s : Stats) : (count_line s).errors = s.errors := rfl

theorem count_line_warnings (s : Stats) : (count_line s).warnings = s.warnings := rfl

theorem count_line_error_samples (s : Stats) : (count_line s).error_samples = s.error_samples := rfl

theorem count_line_warning_samples (s : Stats) :
    (count_line s).warning_samples = s.warning_samples := rfl

theorem count_line_format (s : Stats) :
    (count_line s).format_distribution = s.format_distribution := rfl

theorem count_line_hourly (s : Stats) : (count_line s).hourly_activity = s.hourly_activity := rfl

theorem record_format_total (f : String) (s : Stats) :
    (record_format f s).total_lines = s.total_lines := rfl

theorem record_format_errors (f : String) (s : Stats) : (record_format f s).errors = s.errors := rfl

theorem record_format_warnings (f : String) (s : Stats) :
    (record_format f s).warnings = s.warnings := rfl

theorem record_format_error_samples (f : String) (s : Stats) :
    (record_format f s).error_samples = s.error_samples := rfl

theorem record_format_warning_samples (f : String) (s : Stats) :
    (record_format f s).warning_samples = s.warning_samples := rfl

theorem record_format_hourly (f : String) (s : Stats) :
    (record_format f s).hourly_activity = s.hourly_activity := rfl

theorem hour_phase_total (f : String) (pd : Record) (s : Stats) :
    (hour_phase f pd s).total_lines = s.total_lines := by
  unfold hour_phase; split <;> rfl

theorem hour_phase_errors (f : String) (pd : Record) (s : Stats) :
    (hour_phase f pd s).errors = s.errors := by
  unfold hour_phase; split <;> rfl

theorem hour_phase_warnings (f : String) (pd : Record) (s : Stats) :
    (hour_phase f pd s).warnings = s.warnings := by
  unfold hour_phase; split <;> rfl

theorem hour_phase_error_samples (f : String) (pd : Record) (s : Stats) :
    (hour_phase f pd s).error_samples = s.error_samples := by
  unfold hour_phase; split <;> rfl

theorem hour_phase_warning_samples (f : String) (pd : Record) (s : Stats) :
    (hour_phase f pd s).warning_samples = s.warning_samples := by
  unfold hour_phase; split <;> rfl

theorem hour_phase_format (f : String) (pd : Record) (s : Stats) :
    (hour_phase f pd s).format_distribution = s.format_distribution := by
  unfold hour_phase; split <;> rfl

theorem error_phase_total (n : Nat) (m f : String) (s : Stats) :
    (error_phase n m f s).total_lines = s.total_lines := by
  unfold error_phase; split <;> rfl

theorem error_phase_warnings (n : Nat) (m f : String) (s : Stats) :
    (error_phase n m f s).warnings = s.warnings := by
  unfold error_phase; split <;> rfl

theorem error_phase_warning_samples (n : Nat) (m f : String) (s : Stats) :
    (error_phase n m f s).warning_samples = s.warning_samples := by
  unfold error_phase; split <;> rfl

theorem error_phase_format (n : Nat) (m f : String) (s : Stats) :
    (error_phase n m f s).format_distribution = s.format_distribution := by
  unfold error_phase; split <;> rfl

theorem error_phase_hourly (n : Nat) (m f : String) (s : Stats) :
    (error_phase n m f s).hourly_activity = s.hourly_activity := by
  unfold error_phase; split <;> rfl

theorem error_phase_errors (n : Nat) (m f : String) (s : Stats) :
    (error_phase n m f s).errors
      = s.errors + (if error_patterns.any (fun p => rxSearch p m.data) then 1 else 0) := by
  unfold error_phase; split <;> simp_all

theorem error_phase_samples_len (n : Nat) (m f : String) (s : Stats) :
    (error_phase n m f s).error_samples.length
      = if error_patterns.any (fun p => rxSearch p m.data) ∧ s.error_samples.length < 10
        then s.error_samples.length + 1 else s.error_samples.length := by
  unfold error_phase
  by_cases hm : error_patterns.any (fun p => rxSearch p m.data) = true
  · by_cases h10 : s.error_samples.length < 10 <;> simp [hm, h10]
  · simp [hm]

theorem warning_phase_total (n : Nat) (m f : String) (s : Stats) :
    (warning_phase n m f s).total_lines = s.total_lines := by
  unfold warning_phase; split <;> rfl

theorem warning_phase_errors (n : Nat) (m f : String) (s : Stats) :
    (warning_phase n m f s).errors = s.errors := by
  unfold warning_phase; split <;> rfl

theorem warning_phase_error_samples (n : Nat) (m f : String) (s : Stats) :
    (warning_phase n m f s).error_samples = s.error_samples := by
  unfold warning_phase; split <;> rfl

theorem warning_phase_format (n : Nat) (m f : String) (s : Stats) :
    (warning_phase n m f s).format_distribution = s.format_distribution := by
  unfold warning_phase; split <;> rfl

theorem warning_phase_hourly (n : Nat) (m f : String) (s : Stats) :
    (warning_phase n m f s).hourly_activity = s.hourly_activity := by
  unfold warning_phase; split <;> rfl

theorem warning_phase_warnings (n : Nat) (m f : String) (s : Stats) :
    (warning_phase n m f s).warnings
      = s.warnings + (if warning_patterns.any (fun p => rxSearch p m.data) then 1 else 0) := by
  unfold warning_phase; split <;> simp_all

theorem warning_phase_samples_len (n : Nat) (m f : String) (s : Stats) :
    (warning_phase n m f s).warning_samples.length
      = if warning_patterns.any (fun p => rxSearch p m.data) ∧ s.warning_samples.length < 10
        then s.warning_samples.length + 1 else s.warning_samples.length := by
  unfold warning_phase
  by_cases hm : warning_patterns.any (fun p => rxSearch p m.data) = true
  · by_cases h10 : s.warning_samples.length < 10 <;> simp [hm, h10]
  · simp [hm]

theorem web_status_frames (pd : Record) (s : Stats) :
    (web_status pd s).total_lines = s.total_lines ∧
    (web_status pd s).errors = s.errors ∧
    (web_status pd s).warnings = s.warnings ∧
    (web_status pd s).error_samples = s.error_samples ∧
    (web_status pd s).warning_samples = s.warning_samples ∧
    (web_status pd s).format_distribution = s.format_distribution ∧
    (web_status pd s).hourly_activity = s.hourly_activity := by
  unfold web_status; split <;> exact ⟨rfl, rfl, rfl, rfl, rfl, rfl, rfl⟩

theorem web_path_frames (pd : Record) (s : Stats) :
    (web_path pd s).total_lines = s.total_lines ∧
    (web_path pd s).errors = s.errors ∧
    (web_path pd s).warnings = s.warnings ∧
    (web_path pd s).error_samples = s.error_samples ∧
    (web_path pd s).warning_samples = s.warning_samples ∧
    (web_path pd s).format_distribution = s.format_distribution ∧
    (web_path pd s).hourly_activity = s.hourly_activity := by
  unfold web_path; split <;> exact ⟨rfl, rfl, rfl, rfl, rfl, rfl, rfl⟩

theorem web_ip_frames (pd : Record) (s : Stats) :
    (web_ip pd s).total_lines = s.total_lines ∧
    (web_ip pd s).errors = s.errors ∧
    (web_ip pd s).warnings = s.warnings ∧
    (web_ip pd s).error_samples = s.error_samples ∧
    (web_ip pd s).warning_samples = s.warning_samples ∧
    (web_ip pd s).format_distribution = s.format_distribution ∧
    (web_ip pd s).hourly_activity = s.hourly_activity := by
  unfold web_ip; split <;> exact ⟨rfl, rfl, rfl, rfl, rfl, rfl, rfl⟩

theorem web_phase_frames (f : String) (pd : Record) (s : Stats) :
    (web_phase f pd s).total_lines = s.total_lines ∧
    (web_phase f pd s).errors = s.errors ∧
    (web_phase f pd s).warnings = s.warnings ∧
    (web_phase f pd s).error_samples = s.error_samples ∧
    (web_phase f pd s).warning_samples = s.warning_samples ∧
    (web_phase f pd s).format_distribution = s.format_distribution ∧
    (web_phase f pd s).hourly_activity = s.hourly_activity := by
  unfold web_phase
  split
  · obtain ⟨a1, b1, c1, d1, e1, f1, g1⟩ := web_status_frames pd s
    obtain ⟨a2, b2, c2, d2, e2, f2, g2⟩ := web_path_frames pd (web_status pd s)
    obtain ⟨a3, b3, c3, d3, e3, f3, g3⟩ := web_ip_frames pd (web_path pd (web_status pd s))
    exact ⟨by rw [a3, a2, a1], by rw [b3, b2, b1], by rw [c3, c2, c1], by rw [d3, d2, d1],
           by rw [e3, e2, e1], by rw [f3, f2, f1], by rw [g3, g2, g1]⟩
  · exact ⟨rfl, rfl, rfl, rfl, rfl, rfl, rfl⟩

theorem processLine_total (n : Nat) (l : String) (s : Stats) :
    (processLine n l s).total_lines
      = if pyRstripNL l = "" then s.total_lines else s.total_lines + 1 := by
  simp only [processLine]
  by_cases h : pyRstripNL l = ""
  · rw [if_pos h, if_pos h]
  · rw [if_neg h, if_neg h]
    rw [(web_phase_frames _ _ _).1, warning_phase_total, error_phase_total, hour_phase_total,
        record_format_total]
    rfl

theorem processLine_errors (n : Nat) (l : String) (s : Stats) (h : pyRstripNL l ≠ "") :
    (processLine n l s).errors
      = s.errors
        + (if error_patterns.any (fun p => rxSearch p (line_message (pyRstripNL l)).data)
           then 1 else 0) := by
  simp only [processLine]
  rw [if_neg h]
  rw [(web_phase_frames _ _ _).2.1, warning_phase_errors, error_phase_errors,
      hour_phase_errors, record_format_errors, count_line_errors]
  rfl

theorem processLine_warnings (n : Nat) (l : String) (s : Stats) (h : pyRstripNL l ≠ "") :
    (processLine n l s).warnings
      = s.warnings
        + (if warning_patterns.any (fun p => rxSearch p (line_message (pyRstripNL l)).data)
           then 1 else 0) := by
  simp only [processLine]
  rw [if_neg h]
  rw [(web_phase_frames _ _ _).2.2.1, warning_phase_warnings, error_phase_warnings,
      hour_phase_warnings, record_format_warnings, count_line_warnings]
  rfl

theorem processLine_error_samples_len (n : Nat) (l : String) (s : Stats)
    (h : pyRstripNL l ≠ "") :
    (processLine n l s).error_samples.length
      = if error_patterns.any (fun p => rxSearch p (line_message (pyRstripNL l)).data)
            ∧ s.error_samples.length < 10
        then s.error_samples.length + 1 else s.error_samples.length := by
  simp only [processLine]
  rw [if_neg h]
  rw [(web_phase_frames _ _ _).2.2.2.1, warning_phase_error_samples, error_phase_samples_len,
      hour_phase_error_samples, record_format_error_samples, count_line_error_samples]
  rfl

theorem processLine_warning_samples_len (n : Nat) (l : String) (s : Stats)
    (h : pyRstripNL l ≠ "") :
    (processLine n l s).warning_samples.length
      = if warning_patterns.any (fun p => rxSearch p (line_message (pyRstripNL l)).data)
            ∧ s.warning_samples.length < 10
        then s.warning_samples.length + 1 else s.warning_samples.length := by
  simp only [processLine]
  rw [if_neg h]
  rw [(web_phase_frames _ _ _).2.2.2.2.1, warning_phase_samples_len, error_phase_warning_samples,
      hour_phase_warning_samples, record_format_warning_samples, count_line_warning_samples]
  rfl

theorem processLine_samples_le (n : Nat) (l : String) (s : Stats)
    (he : s.error_samples.length ≤ 10) (hw : s.warning_samples.length ≤ 10) :
    (processLine n l s).error_samples.length ≤ 10 ∧
    (processLine n l s).warning_samples.length ≤ 10 := by
  by_cases h : pyRstripNL l = ""
  · simp only [processLine]
    rw [if_pos h]
    exact ⟨he, hw⟩
  · constructor
    · rw [processLine_error_samples_len n l s h]
      split
    
      · rename_i hP
        omega
      · exact he
    · rw [processLine_warning_samples_len n l s h]
      split
      · rename_i hP
        omega
      · exact hw

theorem runLines_total (ls : List String) :
    ∀ (n : Nat) (s : Stats),
      (runLines n ls s).total_lines
        = s.total_lines + (ls.filter (fun raw => pyRstripNL raw != "")).length := by
  induction ls with
  | nil => intro n s; simp [runLines]
  | cons l rest ih =>
    intro n s
    rw [runLines, ih, processLine_total]
    by_cases h : pyRstripNL l = ""
    · rw [if_pos h]
      have hb : (pyRstripNL l != "") = false := by simp [h]
      rw [List.filter_cons, hb]
      simp
    · rw [if_neg h]
      have hb : (pyRstripNL l != "") = true := by simp [h]
      rw [List.filter_cons, hb]
      simp
      omega

theorem runLines_samples_le (ls : List String) :
    ∀ (n : Nat) (s : Stats),
      s.error_samples.length ≤ 10 → s.warning_samples.length ≤ 10 →
      (runLines n ls s).error_samples.length ≤ 10 ∧
      (runLines n ls s).warning_samples.length ≤ 10 := by
  induction ls with
  | nil => intro n s he hw; exact ⟨he, hw⟩
  | cons l rest ih =>
    intro n s he hw
    rw [runLines]
    obtain ⟨he', hw'⟩ := processLine_samples_le n l s he hw
    exact ih (n + 1) (processLine n l s) he' hw'

/-! ## Claim theorems -/

/-- C2: for every input stream, the reported `total_lines_processed` equals
the number of lines that are non-empty after stripping the trailing line
terminator (`rstrip` of newline and carriage-return characters), regardless
of content or format; empty lines are skipped before any counting. -/
theorem total_lines_equals_nonempty_line_count (lines : List String) :
    (analyze_log_file lines).summary.total_lines_processed
      = (lines.filter (fun raw => pyRstripNL raw != "")).length := by
  show (runLines 1 lines initStats).total_lines = _
  rw [runLines_total]
  simp [initStats]

/-- C3: for every input stream, the error sample buffer and the warning
sample buffer in the final report each have length at most 10, no matter
how many lines match error or warning patterns. -/
theorem sample_buffers_capped (lines : List String) :
    (analyze_log_file lines).error_samples.length ≤ 10 ∧
    (analyze_log_file lines).warning_samples.length ≤ 10 :=
  runLines_samples_le lines 1 initStats (by simp [initStats]) (by simp [initStats])

/-- C4: detection classifies a line whose stripped text matches the JSON
shape as "json" before any other pattern is tried; otherwise syslog, nginx,
apache are tried in that fixed order, anchored at the start of the untrimmed
line, first match wins; if none match the result is "unknown"; detection is
a total function whose value is always one of those five strings (it never
raises). -/
theorem detect_format_priority (line : String) :
    detect_format line
      = (if rxMatches jsonRx (pyStrip line).data then "json"
         else if rxMatches syslogRx line.data then "syslog"
         else if rxMatches nginxRx line.data then "nginx"
         else if rxMatches apacheRx line.data then "apache"
         else "unknown")
    ∧ (detect_format line = "json" ∨ detect_format line = "syslog" ∨
       detect_format line = "nginx" ∨ detect_format line = "apache" ∨
       detect_format line = "unknown") := by
  have hlf : log_formats
      = [("syslog", syslogRx), ("nginx", nginxRx), ("apache", apacheRx), ("json", jsonRx)] := rfl
  have hmain : detect_format line
      = (if rxMatches jsonRx (pyStrip line).data then "json"
         else if rxMatches syslogRx line.data then "syslog"
         else if rxMatches nginxRx line.data then "nginx"
         else if rxMatches apacheRx line.data then "apache"
         else "unknown") := by
    unfold detect_format
    rw [hlf]
    by_cases hj : rxMatches jsonRx (pyStrip line).data = true
    · rw [if_pos hj, if_pos hj]
    · rw [if_neg hj, if_neg hj]
      by_cases hs : rxMatches syslogRx line.data = true
      · rw [List.find?_cons_of_pos _ (by simp [hs]), if_pos hs]
      · rw [List.find?_cons_of_neg _ (by simp [hs]), if_neg hs]
        by_cases hn : rxMatches nginxRx line.data = true
        · rw [List.find?_cons_of_pos _ (by simp [hn]), if_pos hn]
        · rw [List.find?_cons_of_neg _ (by simp [hn]), if_neg hn]
          by_cases ha : rxMatches apacheRx line.data = true
          · rw [List.find?_cons_of_pos _ (by simp [ha]), if_pos ha]
          · rw [List.find?_cons_of_neg _ (by simp [ha]), if_neg ha]
            rw [List.find?_cons_of_neg _ (by simp)]
            rfl
  refine ⟨hmain, ?_⟩
  rw [hmain]
  split_ifs
  · exact Or.inl rfl
  · exact Or.inr (Or.inl rfl)
  · exact Or.inr (Or.inr (Or.inl rfl))
  · exact Or.inr (Or.inr (Or.inr (Or.inl rfl)))
  · exact Or.inr (Or.inr (Or.inr (Or.inr rfl)))

/-- C5: for every non-empty line, folding the line increments the error
counter by exactly 1 when some error pattern matches the message text
(first match wins, so never more than once) and by 0 otherwise, and
likewise and independently for the warning counter — a line matching both
an error and a warning pattern is counted in both. -/
theorem errors_and_warnings_once_per_line (n : Nat) (raw : String) (s : Stats)
    (h : pyRstripNL raw ≠ "") :
    (processLine n raw s).errors
      = s.errors
        + (if error_patterns.any (fun p => rxSearch p (line_message (pyRstripNL raw)).data)
           then 1 else 0)
    ∧ (processLine n raw s).warnings
      = s.warnings
        + (if warning_patterns.any (fun p => rxSearch p (line_message (pyRstripNL raw)).data)
           then 1 else 0) :=
  ⟨processLine_errors n raw s h, processLine_warnings n raw s h⟩

/-- C5 witness: the line "error warn" matches an error pattern and a
warning pattern, and both counters increment exactly once. -/
theorem errors_and_warnings_once_per_line_witness :
    pyRstripNL "error warn" ≠ ""
    ∧ (processLine 1 "error warn" initStats).errors = 1
    ∧ (processLine 1 "error warn" initStats).warnings = 1 := by
  have h : pyRstripNL "error warn" ≠ "" := by decide
  obtain ⟨he, hw⟩ := errors_and_warnings_once_per_line 1 "error warn" initStats h
  refine ⟨h, ?_, ?_⟩
  · rw [he]; decide
  · rw [hw]; decide

/-- C1 counterexample: the specification's nginx example line is indeed
detected as nginx, but analyzing it leaves the error counter at 0 — the
50x pattern is never applied to the parsed line because its message text
is empty, contradicting the claim that the error count is incremented. -/
theorem nginx_500_line_not_counted_as_error :
    detect_format c1line = "nginx"
    ∧ (analyze_log_file [c1line]).summary.error_count = 0 := by
  constructor
  · decide
  · decide

/-- C1 (amended): for the nginx example line, detection returns nginx and
the fold increments the status-code counter for "500", the path counter
for "/api" and the hourly bucket "08", but the error counter is not
incremented (the message text of a successfully parsed nginx record is
empty, so no error pattern — including the 50x pattern — can fire). -/
theorem nginx_500_line_stats :
    detect_format c1line = "nginx"
    ∧ (analyze_log_file [c1line]).summary.total_lines_processed = 1
    ∧ (analyze_log_file [c1line]).status_code_distribution = [("500", 1)]
    ∧ (analyze_log_file [c1line]).top_requested_paths = [("/api", 1)]
    ∧ (analyze_log_file [c1line]).hourly_activity = [("08", 1)]
    ∧ (analyze_log_file [c1line]).summary.error_count = 0
    ∧ (analyze_log_file [c1line]).summary.warning_count = 0 := by
  refine ⟨by decide, by decide, by decide, by decide, by decide, by decide, by decide⟩

/-- C8: the reported error rate equals errors / max(total_lines, 1) × 100
rounded to 2 decimal places (as exact rational arithmetic; ties to even),
and likewise for the warning rate; in particular, for 100 non-empty lines
of which exactly 7 contain "error" case-insensitively and nothing else
matches any pattern, the error count is 7 and the error rate is 7. -/
theorem summary_rates_formula :
    (∀ lines : List String,
       (analyze_log_file lines).summary.error_rate
         = pyRound2 (((analyze_log_file lines).summary.error_count : ℚ)
             / ((max (analyze_log_file lines).summary.total_lines_processed 1 : ℕ) : ℚ) * 100)
       ∧ (analyze_log_file lines).summary.warning_rate
         = pyRound2 (((analyze_log_file lines).summary.warning_count : ℚ)
             / ((max (analyze_log_file lines).summary.total_lines_processed 1 : ℕ) : ℚ) * 100))
    ∧ ((analyze_log_file c8input).summary.total_lines_processed = 100
       ∧ (analyze_log_file c8input).summary.error_count = 7
       ∧ (analyze_log_file c8input).summary.error_rate = 7) := by
  constructor
  · intro lines
    exact ⟨rfl, rfl⟩
  · refine ⟨by set_option maxRecDepth 100000 in decide,
        by set_option maxRecDepth 100000 in decide, ?_⟩
    show pyRound2 (((runLines 1 c8input initStats).errors : ℚ)
        / ((max (runLines 1 c8input initStats).total_lines 1 : ℕ) : ℚ) * 100) = 7
    have h7 : (runLines 1 c8input initStats).errors = 7 := by
      set_option maxRecDepth 100000 in decide
    have h100 : (runLines 1 c8input initStats).total_lines = 100 := by
      set_option maxRecDepth 100000 in decide
    rw [h7, h100]
    have hf : ratFloor 700 = 700 := by decide
    norm_num [pyRound2, roundHalfEven, hf]

theorem gen_rec_eq (s : Stats) :
    generate_recommendations s
      = (let parts :=
           (if s.errors > 0 then [msgErrAdvice] else [])
           ++ (if s.warnings > 0 then [msgWarnAdvice] else [])
           ++ (if (s.errors : ℚ) / ((max s.total_lines 1 : ℕ) : ℚ) > 5 / 100
               then [msgRateAdvice] else [])
           ++ (if ((s.status_codes.map Prod.fst).filter
                  (fun code => strStarts code "4" || strStarts code "5")) ≠ []
               then [msgHttpAdvice] else [])
           ++ (match most_common_1 s.top_ips with
               | some kv =>
                 if (kv.2 : ℚ) > (s.total_lines : ℚ) * (1 / 10) then [msgIpAdvice kv.1] else []
               | none => []);
         if parts = [] then [msgHealthy] else parts) := by
  unfold generate_recommendations
  rcases hm : most_common_1 s.top_ips with _ | ⟨ip, cnt⟩ <;> dsimp only
  · by_cases h1 : s.errors > 0 <;>
      by_cases h2 : s.warnings > 0 <;>
        by_cases h3 : (s.errors : ℚ) / ((max s.total_lines 1 : ℕ) : ℚ) > 5 / 100 <;>
          by_cases h4 : ((s.status_codes.map Prod.fst).filter
              (fun code => strStarts code "4" || strStarts code "5")) ≠ [] <;>
            simp only [h1, h2, h3, h4, ite_true, ite_false, if_true, if_false] <;> simp [h4]
  · by_cases h6 : (cnt : ℚ) > (s.total_lines : ℚ) * (1 / 10) <;>
      by_cases h1 : s.errors > 0 <;>
        by_cases h2 : s.warnings > 0 <;>
          by_cases h3 : (s.errors : ℚ) / ((max s.total_lines 1 : ℕ) : ℚ) > 5 / 100 <;>
            by_cases h4 : ((s.status_codes.map Prod.fst).filter
                (fun code => strStarts code "4" || strStarts code "5")) ≠ [] <;>
              simp only [h1, h2, h3, h4, h6, ite_true, ite_false, if_true, if_false] <;>
                simp [h4]

/-- C7 (amended): the recommendation list equals the concatenation, in
fixed program order, of the five independent condition checks (errors>0;
warnings>0; error rate>5%; some status code starting with "4" or "5";
most-frequent IP above 10% of total lines — the advisory names that IP but
not its count); when no condition fires the list is exactly the single
fallback element. -/
theorem recommendations_fixed_order (s : Stats) :
    generate_recommendations s
      = (let parts :=
           (if s.errors > 0 then [msgErrAdvice] else [])
           ++ (if s.warnings > 0 then [msgWarnAdvice] else [])
           ++ (if (s.errors : ℚ) / ((max s.total_lines 1 : ℕ) : ℚ) > 5 / 100
               then [msgRateAdvice] else [])
           ++ (if ((s.status_codes.map Prod.fst).filter
                  (fun code => strStarts code "4" || strStarts code "5")) ≠ []
               then [msgHttpAdvice] else [])
           ++ (match most_common_1 s.top_ips with
               | some kv =>
                 if (kv.2 : ℚ) > (s.total_lines : ℚ) * (1 / 10) then [msgIpAdvice kv.1] else []
               | none => []);
         if parts = [] then [msgHealthy] else parts) :=
  gen_rec_eq s

/-- C7 counterexample: with one IP at 15 of 100 lines the bot advisory
fires, but its text does not name the count — the count 16 produces the
very same recommendation list, and the digit string "15" does not occur
in the message; this contradicts the claim that the advisory names the
IP and its count. -/
theorem ip_recommendation_ignores_count :
    generate_recommendations c7statsA = [msgIpAdvice "1.2.3.4"]
    ∧ generate_recommendations c7statsB = generate_recommendations c7statsA
    ∧ hasSub (msgIpAdvice "1.2.3.4").data "15".data = false := by
  have hA := gen_rec_eq c7statsA
  have hB := gen_rec_eq c7statsB
  refine ⟨?_, ?_, by decide⟩
  · rw [hA]
    norm_num [c7statsA, initStats, most_common_1]
  · rw [hB, hA]
    norm_num [c7statsA, c7statsB, initStats, most_common_1]

theorem counterIncr_keys (m : List (String × Nat)) (k x : String)
    (hx : x ∈ (counterIncr m k).map Prod.fst) : x ∈ m.map Prod.fst ∨ x = k := by
  induction m with
  | nil =>
    simp [counterIncr] at hx
    exact Or.inr hx
  | cons kv rest ih =>
    rcases kv with ⟨k', n⟩
    by_cases h : k' == k
    · simp only [counterIncr, h, if_true, List.map_cons, List.mem_cons] at hx ⊢
      tauto
    · simp only [counterIncr, h, if_false, Bool.false_eq_true, List.map_cons,
        List.mem_cons] at hx ⊢
      rcases hx with h1 | h2
      · exact Or.inl (Or.inl h1)
      · rcases ih h2 with ha | hb
        · exact Or.inl (Or.inr ha)
        · exact Or.inr hb

theorem processLine_hourly_keys (n : Nat) (l : String) (s : Stats) (x : String)
    (hx : x ∈ (processLine n l s).hourly_activity.map Prod.fst) :
    x ∈ s.hourly_activity.map Prod.fst ∨ hour_of_raw l = some x := by
  by_cases h : pyRstripNL l = ""
  · simp only [processLine] at hx
    rw [if_pos h] at hx
    exact Or.inl hx
  · simp only [processLine] at hx
    rw [if_neg h] at hx
    rw [(web_phase_frames _ _ _).2.2.2.2.2.2, warning_phase_hourly, error_phase_hourly] at hx
    unfold hour_phase at hx
    rcases he : extract_hour (detect_format (pyRstripNL l))
        (parse_line (pyRstripNL l) (detect_format (pyRstripNL l))) with _ | hval
    · rw [he] at hx
      rw [record_format_hourly, count_line_hourly] at hx
      exact Or.inl hx
    · rw [he] at hx
      rw [record_format_hourly, count_line_hourly] at hx
      rcases counterIncr_keys _ _ _ hx with h1 | h2
      · exact Or.inl h1
      · right
        unfold hour_of_raw
        rw [if_neg h, he, h2]

theorem runLines_hourly_keys (ls : List String) :
    ∀ (n : Nat) (s : Stats) (x : String),
      x ∈ (runLines n ls s).hourly_activity.map Prod.fst →
      x ∈ s.hourly_activity.map Prod.fst ∨ x ∈ extracted_hours ls := by
  induction ls with
  | nil => intro n s x hx; exact Or.inl hx
  | cons l rest ih =>
    intro n s x hx
    rw [runLines] at hx
    rcases ih (n + 1) (processLine n l s) x hx with h1 | h2
    · rcases processLine_hourly_keys n l s x h1 with ha | hb
      · exact Or.inl ha
      · right
        unfold extracted_hours
        simp [List.filterMap_cons, hb]
    · right
      unfold extracted_hours at h2 ⊢
      rw [List.filterMap_cons]
      cases hor : hour_of_raw l
      · exact h2
      · exact List.mem_cons_of_mem _ h2

/-- C9 (amended): every key of the hourly-activity histogram is the hour
token extracted from some input line by the split rules (nginx/apache:
second ":"-separated token of the timestamp; syslog: third whitespace
token's first ":"-part), with extraction failures silently contributing
nothing; the keys are whatever those tokens are, and are not constrained
to the two-digit range "00".."23". -/
theorem hourly_keys_from_extraction (lines : List String) :
    ((analyze_log_file lines).hourly_activity.map Prod.fst).all
      (fun k => (extracted_hours lines).contains k) = true := by
  rw [List.all_eq_true]
  intro k hk
  have hk' : k ∈ (runLines 1 lines initStats).hourly_activity.map Prod.fst := hk
  rcases runLines_hourly_keys lines 1 initStats k hk' with h1 | h2
  · simp [initStats] at h1
  · exact List.elem_iff.mpr h2

/-- C9 counterexample: an nginx-shaped line whose bracketed timestamp is
"a:ZZ:b" matches the nginx pattern, and the fold records the hourly key
"ZZ", which is not one of the two-digit hour strings "00".."23" — so
hourly keys are not always in that range. -/
theorem hourly_key_outside_clock_range :
    (analyze_log_file [c9line]).hourly_activity = [("ZZ", 1)]
    ∧ claimed_hour_keys.contains "ZZ" = false :=
  ⟨by decide, by decide⟩
theorem countValue_counterIncr (m : List (String × Nat)) (k k' : String) :
    countValue (counterIncr m k) k' = countValue m k' + (if k = k' then 1 else 0) := by
  induction m with
  | nil =>
    by_cases h : k = k'
    · simp [counterIncr, countValue, List.lookup, h]
    · have hb : (k' == k) = false := by simp [Ne.symm h]
      simp [counterIncr, countValue, List.lookup, h, hb]
  | cons kv rest ih =>
    rcases kv with ⟨a, n⟩
    by_cases hak : a = k
    · subst hak
      by_cases hk' : a = k'
      · subst hk'
        simp [counterIncr, countValue, List.lookup]
      · have hb : (k' == a) = false := by simp [Ne.symm hk']
        simp [counterIncr, countValue, List.lookup, hb, hk']
    · have hb : (a == k) = false := by simp [hak]
      by_cases hk' : a = k'
      · subst hk'
        simp [counterIncr, countValue, List.lookup, hb, Ne.symm hak]
      · have hb' : (k' == a) = false := by simp [Ne.symm hk']
        simp only [counterIncr, hb, Bool.false_eq_true, if_false, countValue, List.lookup,
          hb']
        exact ih

theorem processLine_unknown_count (n : Nat) (l : String) (s : Stats) :
    countValue (processLine n l s).format_distribution "unknown"
      = countValue s.format_distribution "unknown"
        + (if pyRstripNL l ≠ "" ∧ detect_format (pyRstripNL l) = "unknown" then 1 else 0) := by
  by_cases h : pyRstripNL l = ""
  · simp only [processLine]
    rw [if_pos h, if_neg (by tauto)]
    omega
  · simp only [processLine]
    rw [if_neg h]
    rw [(web_phase_frames _ _ _).2.2.2.2.2.1, warning_phase_format, error_phase_format,
      hour_phase_format]
    show countValue (counterIncr s.format_distribution (detect_format (pyRstripNL l)))
        "unknown" = _
    rw [countValue_counterIncr]
    by_cases hd : detect_format (pyRstripNL l) = "unknown"
    · rw [if_pos hd, if_pos ⟨h, hd⟩]
    · rw [if_neg hd, if_neg (by tauto)]

theorem runLines_unknown_count (ls : List String) :
    ∀ (n : Nat) (s : Stats),
      countValue (runLines n ls s).format_distribution "unknown"
        = countValue s.format_distribution "unknown"
          + (ls.filter (fun raw =>
              pyRstripNL raw != "" && detect_format (pyRstripNL raw) == "unknown")).length := by
  induction ls with
  | nil => intro n s; simp [runLines]
  | cons l rest ih =>
    intro n s
    rw [runLines, ih, processLine_unknown_count, List.filter_cons]
    by_cases h1 : pyRstripNL l = ""
    · have hb : (pyRstripNL l != "" && detect_format (pyRstripNL l) == "unknown") = false := by
        simp [h1]
      rw [hb, if_neg (by tauto)]
      simp
    · by_cases h2 : detect_format (pyRstripNL l) = "unknown"
      · have hb : (pyRstripNL l != "" && detect_format (pyRstripNL l) == "unknown") = true := by
          simp [h1, h2]
        rw [hb, if_pos ⟨h1, h2⟩]
        simp
        omega
      · have hb : (pyRstripNL l != "" && detect_format (pyRstripNL l) == "unknown") = false := by
          simp [h1, h2]
        rw [hb, if_neg (by tauto)]
        simp

/-- C6 (amended): parse never propagates a failure: a line handed to the
JSON parser whose decode fails yields the fallback record with the
stripped line as raw text and format "json_parse_error"; a line handed to
syslog/nginx/apache parsing whose pattern fails to re-match yields the
fallback with format "<name>_parse_error"; an Unknown-format line yields
the fallback with the stripped line as raw text and format "unknown", and
such lines are counted under "unknown" in the format distribution. -/
theorem parse_line_fallbacks :
    (∀ line : String, jsonLoads (pyStrip line) = none →
        parse_line line "json" = Record.fallback (pyStrip line) "json_parse_error")
    ∧ (∀ line : String, rxCaptures syslogRx line.data = none →
        parse_line line "syslog" = Record.fallback (pyStrip line) "syslog_parse_error")
    ∧ (∀ line : String, rxCaptures nginxRx line.data = none →
        parse_line line "nginx" = Record.fallback (pyStrip line) "nginx_parse_error")
    ∧ (∀ line : String, rxCaptures apacheRx line.data = none →
        parse_line line "apache" = Record.fallback (pyStrip line) "apache_parse_error")
    ∧ (∀ line : String, detect_format line = "unknown" →
        parse_line line (detect_format line) = Record.fallback (pyStrip line) "unknown")
    ∧ (∀ lines : List String,
        countValue (analyze_log_file lines).format_analysis "unknown"
          = (lines.filter (fun raw =>
              pyRstripNL raw != "" && detect_format (pyRstripNL raw) == "unknown")).length) := by
  refine ⟨?_, ?_, ?_, ?_, ?_, ?_⟩
  · intro line h
    simp [parse_line, h]
  · intro line h
    simp [parse_line, h]
  · intro line h
    simp [parse_line, h]
  · intro line h
    simp [parse_line, h]
  · intro line h
    rw [h]
    simp [parse_line]
  · intro lines
    show countValue (runLines 1 lines initStats).format_distribution "unknown" = _
    rw [runLines_unknown_count]
    simp [countValue, initStats]

/-- C6 witness: a brace-delimited non-JSON line falls back with
"json_parse_error"; "zzz" fails the syslog pattern and falls back with
"syslog_parse_error"; "zzz" detects as unknown, falls back with "unknown"
and is counted once under "unknown". -/
theorem parse_line_fallbacks_witness :
    (jsonLoads (pyStrip "\x7bbad\x7d") = none
      ∧ parse_line "\x7bbad\x7d" "json"
          = Record.fallback (pyStrip "\x7bbad\x7d") "json_parse_error")
    ∧ (rxCaptures syslogRx "zzz".data = none
      ∧ parse_line "zzz" "syslog" = Record.fallback (pyStrip "zzz") "syslog_parse_error")
    ∧ (detect_format "zzz" = "unknown"
      ∧ parse_line "zzz" (detect_format "zzz") = Record.fallback (pyStrip "zzz") "unknown")
    ∧ countValue (analyze_log_file ["zzz"]).format_analysis "unknown" = 1 := by
  have h := parse_line_fallbacks
  refine ⟨⟨by decide, h.1 "\x7bbad\x7d" (by decide)⟩,
          ⟨by decide, h.2.1 "zzz" (by decide)⟩,
          ⟨by decide, h.2.2.2.2.1 "zzz" (by decide)⟩, ?_⟩
  rw [h.2.2.2.2.2 ["zzz"]]
  decide

/-- C6 counterexample: the Unknown-format fallback stores the stripped
line, not the raw line: parsing " x " as unknown yields raw text "x",
which differs from the claimed record carrying " x ". -/
theorem unknown_fallback_strips_line :
    detect_format " x " = "unknown"
    ∧ parse_line " x " "unknown" = Record.fallback "x" "unknown"
    ∧ Record.fallback "x" "unknown" ≠ Record.fallback " x " "unknown" :=
  ⟨by decide, by decide, by decide⟩
theorem rxSearch_cons (r : Rx) (c : Char) (l : List Char) (h : rxSearch r l = true) :
    rxSearch r (c :: l) = true := by
  show (rxMatches r (c :: l) || rxSearch r l) = true
  rw [h, Bool.or_true]

theorem rxSearch_append_right (r : Rx) (s t : List Char) (h : rxSearch r t = true) :
    rxSearch r (s ++ t) = true := by
  induction s with
  | nil => simpa using h
  | cons c cs ih => exact rxSearch_cons r c (cs ++ t) ih

theorem error_pattern_hits_json_fallback (R : String) :
    rxSearch (ciLit "error")
      (message_text "json" (Record.fallback R "json_parse_error")).data = true := by
  show rxSearch (ciLit "error")
      ('\x7b' :: '"' :: 'r' :: 'a' :: 'w' :: '"' :: ':' :: ' ' :: '"' ::
        (((((escStr R).data ++ ['"']) ++ ", ".data)
            ++ ((dumpStr "format" ++ ": " ++ dumpStr "json_parse_error").data)) ++ ['\x7d'])) = true
  iterate 9 apply rxSearch_cons
  simp only [List.append_assoc]
  exact rxSearch_append_right _ _ _ (by decide)

/-- C10: for every non-empty line detected as JSON whose decode fails, the
error counter is incremented by exactly one (and a sample is recorded when
the buffer has room), whatever the line's own text: the fallback record is
re-serialized as the message text, and its format tag "json_parse_error"
contains the substring "error", so the first error pattern always fires. -/
theorem json_decode_failure_counts_error (n : Nat) (raw : String) (s : Stats)
    (h1 : pyRstripNL raw ≠ "")
    (h2 : detect_format (pyRstripNL raw) = "json")
    (h3 : jsonLoads (pyStrip (pyRstripNL raw)) = none) :
    message_text "json" (parse_line (pyRstripNL raw) "json")
      = dumpRecord (Record.fallback (pyStrip (pyRstripNL raw)) "json_parse_error")
    ∧ (processLine n raw s).errors = s.errors + 1
    ∧ (s.error_samples.length < 10 →
       (processLine n raw s).error_samples.length = s.error_samples.length + 1) := by
  have hparse : parse_line (pyRstripNL raw) "json"
      = Record.fallback (pyStrip (pyRstripNL raw)) "json_parse_error" := by
    simp [parse_line, h3]
  have hfirst : rxSearch (ciLit "error")
      (message_text "json"
        (Record.fallback (pyStrip (pyRstripNL raw)) "json_parse_error")).data = true :=
    error_pattern_hits_json_fallback _
  have hany : error_patterns.any
      (fun p => rxSearch p (line_message (pyRstripNL raw)).data) = true := by
    unfold line_message
    rw [h2, hparse]
    refine List.any_eq_true.mpr ⟨ciLit "error", ?_, hfirst⟩
    simp [error_patterns]
  refine ⟨?_, ?_, ?_⟩
  · rw [hparse]
    rfl
  · rw [processLine_errors n raw s h1, if_pos hany]
  · intro hlen
    rw [processLine_error_samples_len n raw s h1, if_pos ⟨hany, hlen⟩]

/-- C10 witness: the line made of a brace-delimited non-JSON body detects
as JSON, fails to decode, and contributes one error and one sample. -/
theorem json_decode_failure_counts_error_witness :
    (pyRstripNL "\x7bbad\x7d" ≠ ""
      ∧ detect_format (pyRstripNL "\x7bbad\x7d") = "json"
      ∧ jsonLoads (pyStrip (pyRstripNL "\x7bbad\x7d")) = none)
    ∧ (processLine 1 "\x7bbad\x7d" initStats).errors = 1
    ∧ (processLine 1 "\x7bbad\x7d" initStats).error_samples.length = 1 := by
  have h := json_decode_failure_counts_error 1 "\x7bbad\x7d" initStats
    (by decide) (by decide) (by decide)
  refine ⟨⟨by decide, by decide, by decide⟩, h.2.1, ?_⟩
  have := h.2.2 (by decide)
  simpa [initStats] using this
